import Mathlib

/-!
Verification development for the NetSuite API simulation service
(`src/main.py`).  The service is a single-file FastAPI application with

* a fixed customer-tier table `CUSTOMER_TIERS` (rate limit and priority),
* JWT-style token issuance (`create_token`) and verification
  (`decode_token`) over a shared secret,
* an authentication / rate-limiting middleware (`auth_and_rate_limit`)
  keeping an in-memory per-customer hour-bucket request counter in the
  module-level `cache` dictionary,
* a login endpoint checking hardcoded credentials, and
* an inventory endpoint (`get_inventory`) with tier-dependent response
  shaping and `(page, limit)` pagination over items in id order.

The embedding below models the mutable `cache` dictionary as an
association list under lookup semantics (assignment is modelled as a
shadowing cons, which is observationally identical for lookup), machine
time as natural-number seconds, the wall-clock hour label as an opaque
string (matching the formatted `"%Y-%m-%d-%H"` key the code compares),
and the HS256 signature symbolically as the pair of the signing key and
the signed payload, so that a signature verifies exactly when it was
produced with the same key over the same payload.
-/

/-- A tier record of the `CUSTOMER_TIERS` table: rate limit
(requests/hour) and priority (src/main.py lines 26-30). -/
structure TierInfo where
  rate_limit : Nat
  priority : Nat
deriving DecidableEq, Repr

/-- The fixed tier table `CUSTOMER_TIERS` (src/main.py lines 26-30). -/
def CUSTOMER_TIERS : List (String × TierInfo) :=
  [("standard", { rate_limit := 30, priority := 1 }),
   ("premium", { rate_limit := 100, priority := 2 }),
   ("enterprise", { rate_limit := 300, priority := 3 })]

/-- One entry of the rate-limiting cache: the per-customer request
counter together with its hour-bucket key
(`{"count": ..., "hour": ...}` in src/main.py lines 116, 120). -/
structure RateWindow where
  count : Nat
  hour : String
deriving DecidableEq, Repr

/-- The module-level `cache` dictionary, modelled as an association
list from cache keys to rate windows with first-match lookup. -/
abbrev Cache := List (String × RateWindow)

/-- Dictionary lookup `cache[k]` / `k in cache`. -/
def Cache.find (c : Cache) (k : String) : Option RateWindow :=
  List.lookup k c

/-- Dictionary assignment `cache[k] = v`, modelled as a shadowing cons:
under `Cache.find` this is observationally the same as in-place update. -/
def Cache.set (c : Cache) (k : String) (v : RateWindow) : Cache :=
  (k, v) :: c

/-- The cache key `f"rate_limit:{customer_id}"` (src/main.py line 112). -/
def rateLimitKey (customer_id : String) : String :=
  "rate_limit:" ++ customer_id

/-- Outcome of the rate-limit check: either the request proceeds or it
is rejected with an HTTP status code. -/
inductive Decision where
  | allowed
  | denied (status : Nat)
deriving DecidableEq, Repr

/-- The rate-limiting block of the middleware (src/main.py lines
112-127): insert a fresh window if the key is absent, reset the window
if the stored hour label differs from the current one, then deny with
429 when the count has reached the limit and otherwise increment the
count and allow.  Returns the decision and the updated cache.  After
the first two steps the key is always present, so the final `none`
branch is unreachable. -/
def rate_limit_step (cache : Cache) (customer_id : String) (rate_limit : Nat)
    (current_hour : String) : Decision × Cache :=
  let cache_key := rateLimitKey customer_id
  let c1 :=
    match cache.find cache_key with
    | none => cache.set cache_key { count := 0, hour := current_hour }
    | some _ => cache
  let c2 :=
    match c1.find cache_key with
    | some w =>
        if w.hour ≠ current_hour then
          c1.set cache_key { count := 0, hour := current_hour }
        else c1
    | none => c1
  match c2.find cache_key with
  | some w =>
      if rate_limit ≤ w.count then (Decision.denied 429, c2)
      else (Decision.allowed, c2.set cache_key { count := w.count + 1, hour := w.hour })
  | none => (Decision.allowed, c2)

/-- The shared signing secret `SECRET_KEY` (src/main.py line 23). -/
def SECRET_KEY : String := "netsuite_simulation_secret"

/-- The JWT payload `{"sub": ..., "tier": ..., "exp": ...}` built by
`create_token` (src/main.py lines 75-79); `exp` is an absolute time in
seconds. -/
structure TokenPayload where
  sub : String
  tier : String
  exp : Nat
deriving DecidableEq, Repr

/-- Symbolic HS256 signature: an HMAC over the payload.  Modelled as the
pair of the signing key and the signed payload, so two signatures are
equal exactly when the same key signed the same payload. -/
def hs256_sign (secret : String) (payload : TokenPayload) : String × TokenPayload :=
  (secret, payload)

/-- A signed token as produced by `jwt.encode`: the payload together
with its signature. -/
structure Token where
  payload : TokenPayload
  sig : String × TokenPayload
deriving DecidableEq, Repr

/-- Token issuance `create_token` (src/main.py lines 73-80): the payload
carries the customer id as subject, the tier, and an expiration 24
hours from now; the token is signed with `SECRET_KEY`. -/
def create_token (now : Nat) (customer_id : String) (tier : String) : Token :=
  let expiration := now + 24 * 3600
  let payload : TokenPayload := { sub := customer_id, tier := tier, exp := expiration }
  { payload := payload, sig := hs256_sign SECRET_KEY payload }

/-- Token verification `decode_token` (src/main.py lines 82-87):
`jwt.decode` checks the HS256 signature against `SECRET_KEY` and that
the expiration has not passed (PyJWT rejects once `now` reaches `exp`);
on failure the function raises HTTP 401. -/
def decode_token (token : Token) (now : Nat) : Except Nat TokenPayload :=
  if token.sig = hs256_sign SECRET_KEY token.payload ∧ now < token.payload.exp then
    Except.ok token.payload
  else Except.error 401

/-- The hardcoded credential table of the login endpoint
(src/main.py lines 154-158), as `(customer_id, (api_key, tier))`. -/
def valid_customers : List (String × String × String) :=
  [("CUST001", ("apikey001", "standard")),
   ("CUST002", ("apikey002", "premium")),
   ("CUST003", ("apikey003", "enterprise"))]

/-- The login endpoint (src/main.py lines 150-172): unknown customer id
or mismatched api key fail with 401; otherwise a token is issued for
the customer, returned with token type `"bearer"`. -/
def login (now : Nat) (customer_id : String) (api_key : String) :
    Except Nat (Token × String) :=
  match List.lookup customer_id valid_customers with
  | none => Except.error 401
  | some (key, tier) =>
      if key ≠ api_key then Except.error 401
      else Except.ok (create_token now customer_id tier, "bearer")

/-- The cache state after `n` requests by one customer in one hour
bucket, starting from the empty cache. -/
def cacheAfter (customer_id : String) (rate_limit : Nat) (current_hour : String) :
    Nat → Cache
  | 0 => []
  | n + 1 =>
      (rate_limit_step (cacheAfter customer_id rate_limit current_hour n)
        customer_id rate_limit current_hour).2

/-- The decision the middleware takes on the k-th request (1-indexed)
of a single customer within a single hour bucket, starting from the
empty cache. -/
def nthDecision (customer_id : String) (rate_limit : Nat) (current_hour : String)
    (k : Nat) : Decision :=
  (rate_limit_step (cacheAfter customer_id rate_limit current_hour (k - 1))
    customer_id rate_limit current_hour).1

/-- An HTTP response as the middleware observes it: the status code and
whether the `X-Processing-Time` header is present on it. -/
structure Response where
  status : Nat
  hasProcessingTime : Bool
deriving DecidableEq, Repr

/-- The `Authorization` header of a request, after the string-level
checks of src/main.py lines 97-99: absent, present but not of the form
`Bearer <token>`, or a bearer token. -/
inductive AuthHeader where
  | missing
  | malformed
  | bearer (t : Token)
deriving DecidableEq

/-- The part of an incoming request the middleware inspects. -/
structure MwRequest where
  path : String
  auth : AuthHeader
deriving DecidableEq

/-- The `auth_and_rate_limit` middleware (src/main.py lines 90-143).
Login requests pass through untouched.  Otherwise: a missing or
malformed `Authorization` header yields 401; a failing `decode_token`
raises HTTP 401 (caught by the blanket `except`, again a 401); an
unknown tier raises `KeyError` on `CUSTOMER_TIERS[tier]`, caught by the
blanket `except` as 401; a denied rate check yields the 429 response;
otherwise the inner handler runs and the `X-Processing-Time` header is
added to its response.  `now` is the clock used for token expiry and
`current_hour` the formatted hour label used for the rate bucket.
Returns the response and the updated rate cache. -/
def auth_and_rate_limit (cache : Cache) (now : Nat) (current_hour : String)
    (req : MwRequest) (inner : Response) : Response × Cache :=
  if req.path = "/api/login" then (inner, cache)
  else
    match req.auth with
    | AuthHeader.missing => ({ status := 401, hasProcessingTime := false }, cache)
    | AuthHeader.malformed => ({ status := 401, hasProcessingTime := false }, cache)
    | AuthHeader.bearer t =>
        match decode_token t now with
        | Except.error _ => ({ status := 401, hasProcessingTime := false }, cache)
        | Except.ok token_data =>
            match List.lookup token_data.tier CUSTOMER_TIERS with
            | none => ({ status := 401, hasProcessingTime := false }, cache)
            | some info =>
                match rate_limit_step cache token_data.sub info.rate_limit current_hour with
                | (Decision.denied s, c2) =>
                    ({ status := s, hasProcessingTime := false }, c2)
                | (Decision.allowed, c2) =>
                    ({ status := inner.status, hasProcessingTime := true }, c2)

/-- An inventory row (src/main.py lines 50-57); `last_updated` is a
timestamp in seconds. -/
structure InventoryItem where
  item_id : String
  name : String
  quantity : Nat
  last_updated : Nat
deriving DecidableEq, Repr

/-- The body of a `/api/inventory` response (src/main.py lines 232-241).
The rich enterprise list response carries `total`, `page`, `limit` and
`pages`; in every other case those fields are absent (`none`).  The
`pages` field can be present yet hold the JSON value `null` (the code
writes `None` when the count is falsy), hence the nested option:
`none` = field absent, `some none` = field present holding null,
`some (some p)` = field present holding `p`. -/
structure InvResponse where
  items : List InventoryItem
  total : Option Nat
  pageField : Option Nat
  limitField : Option Nat
  pages : Option (Option Nat)
deriving DecidableEq, Repr

/-- Python truthiness of the optional `item_id` query parameter: `None`
and the empty string are falsy (`if item_id:` / `not item_id` in
src/main.py lines 209 and 232). -/
def truthyStr : Option String → Bool
  | none => false
  | some s => s ≠ ""

/-- The `get_inventory` handler (src/main.py lines 175-251), restricted
to its data path: the store is the list `db` of inventory rows in id
(insertion) order, so `SELECT ... WHERE item_id = $1` is a filter,
`SELECT ... ORDER BY id LIMIT $1 OFFSET $2` with `offset =
(page - 1) * limit` is drop-then-take, and `SELECT COUNT(*)` is the
length.  The offset is computed over the integers as in Python: when
`page = 0` it is `-limit`, PostgreSQL rejects the negative `OFFSET`
(the query raises), and the blanket `except` maps this to 500 for
every tier, so the model errors there too.  The delays are pure timing
effects and the connection pool is assumed available (its exhaustion
and storage failures are external, mapped by the handler to 503/500).
The other internal failure kept is the `ZeroDivisionError` in the
`pages` computation when the count is truthy and `limit = 0`, again
mapped to 500 by the blanket `except`. -/
def get_inventory (db : List InventoryItem) (tier : String)
    (item_id : Option String) (page : Nat) (limit : Nat) :
    Except Nat InvResponse :=
  if truthyStr item_id then
    Except.ok
      { items := db.filter (fun it => it.item_id == item_id.getD ""),
        total := none, pageField := none, limitField := none, pages := none }
  else
    let offset : Int := ((page : Int) - 1) * (limit : Int)
    if offset < 0 then Except.error 500
    else
    let result := (db.drop offset.toNat).take limit
    if tier = "enterprise" then
      let count := db.length
      if count ≠ 0 ∧ limit = 0 then Except.error 500
      else
        Except.ok
          { items := result, total := some count,
            pageField := some page, limitField := some limit,
            pages := if count = 0 then some none
                     else some (some ((count + limit - 1) / limit)) }
    else
      Except.ok
        { items := result, total := none, pageField := none,
          limitField := none, pages := none }

/-- The items carried by a `get_inventory` result, empty for an error
response. -/
def invItems : Except Nat InvResponse → List InventoryItem
  | Except.ok r => r.items
  | Except.error _ => []

/-- The metadata fields `(total, page, limit, pages)` carried by a
`get_inventory` result. -/
def invMeta : Except Nat InvResponse →
    Except Nat (Option Nat × Option Nat × Option Nat × Option (Option Nat))
  | Except.ok r => Except.ok (r.total, r.pageField, r.limitField, r.pages)
  | Except.error s => Except.error s

/-- The HTTP response produced by the `/api/login` handler
(src/main.py lines 150-172): 200 on success and 401 on bad
credentials.  Neither the handler nor the login branch of the
middleware (which returns `call_next(request)` unchanged) sets the
`X-Processing-Time` header, so `hasProcessingTime` is `false`. -/
def login_response (now : Nat) (customer_id : String) (api_key : String) : Response :=
  { status :=
      match login now customer_id api_key with
      | Except.ok _ => 200
      | Except.error s => s,
    hasProcessingTime := false }

/-- A small concrete inventory used by the witnesses, in id order. -/
def demoDb : List InventoryItem :=
  [{ item_id := "ITEM-0", name := "Product 0", quantity := 5, last_updated := 0 },
   { item_id := "ITEM-1", name := "Product 1", quantity := 7, last_updated := 0 },
   { item_id := "ITEM-2", name := "Product 2", quantity := 9, last_updated := 0 }]

/-- A concrete rate cache used by the witnesses: CUST001 has used its
full standard quota in the 10 oclock bucket. -/
def demoCache : Cache :=
  [("rate_limit:CUST001", { count := 30, hour := "2024-01-01-10" })]

/-- A concrete token whose signature was produced under a key other
than `SECRET_KEY`, used by the C7 witness. -/
def tamperedToken : Token :=
  { payload := { sub := "CUST001", tier := "standard", exp := 86400 },
    sig := ("wrong_secret", { sub := "CUST001", tier := "standard", exp := 86400 }) }

lemma Cache.find_set_same (c : Cache) (k : String) (v : RateWindow) :
    (c.set k v).find k = some v := by
  simp [Cache.find, Cache.set, List.lookup]

lemma Cache.find_set_other (c : Cache) (k k' : String) (v : RateWindow)
    (h : k' ≠ k) : (c.set k v).find k' = c.find k' := by
  simp [Cache.find, Cache.set, List.lookup, beq_false_of_ne h]

lemma rateLimitKey_inj {a b : String} (h : rateLimitKey a = rateLimitKey b) :
    a = b := by
  have hd := congrArg String.data h
  simp only [rateLimitKey, String.data_append] at hd
  exact String.ext (List.append_cancel_left hd)

lemma rate_limit_step_fresh (cache : Cache) (customer_id : String)
    (rate_limit : Nat) (current_hour : String)
    (h : cache.find (rateLimitKey customer_id) = none) :
    rate_limit_step cache customer_id rate_limit current_hour =
      if rate_limit = 0 then
        (Decision.denied 429, cache.set (rateLimitKey customer_id) { count := 0, hour := current_hour })
      else
        (Decision.allowed,
          ((cache.set (rateLimitKey customer_id) { count := 0, hour := current_hour }).set
            (rateLimitKey customer_id) { count := 1, hour := current_hour })) := by
  simp only [rate_limit_step, h, Cache.find_set_same, ne_eq, not_true_eq_false, if_false,
    ite_false]
  rcases Nat.eq_zero_or_pos rate_limit with h0 | hpos
  · subst h0; simp
  · simp [Nat.not_le.mpr hpos, Nat.pos_iff_ne_zero.mp hpos]

lemma rate_limit_step_stale (cache : Cache) (customer_id : String)
    (rate_limit : Nat) (current_hour : String) (w : RateWindow)
    (hfind : cache.find (rateLimitKey customer_id) = some w)
    (hhour : w.hour ≠ current_hour) :
    rate_limit_step cache customer_id rate_limit current_hour =
      if rate_limit = 0 then
        (Decision.denied 429, cache.set (rateLimitKey customer_id) { count := 0, hour := current_hour })
      else
        (Decision.allowed,
          ((cache.set (rateLimitKey customer_id) { count := 0, hour := current_hour }).set
            (rateLimitKey customer_id) { count := 1, hour := current_hour })) := by
  simp only [rate_limit_step, hfind, ne_eq, hhour, not_false_eq_true, if_true,
    Cache.find_set_same]
  rcases Nat.eq_zero_or_pos rate_limit with h0 | hpos
  · subst h0; simp
  · simp [Nat.not_le.mpr hpos, Nat.pos_iff_ne_zero.mp hpos]

lemma rate_limit_step_current_lt (cache : Cache) (customer_id : String)
    (rate_limit : Nat) (current_hour : String) (w : RateWindow)
    (hfind : cache.find (rateLimitKey customer_id) = some w)
    (hhour : w.hour = current_hour) (hlt : w.count < rate_limit) :
    rate_limit_step cache customer_id rate_limit current_hour =
      (Decision.allowed,
        cache.set (rateLimitKey customer_id) { count := w.count + 1, hour := w.hour }) := by
  simp [rate_limit_step, hfind, hhour, Nat.not_le.mpr hlt]

lemma rate_limit_step_current_ge (cache : Cache) (customer_id : String)
    (rate_limit : Nat) (current_hour : String) (w : RateWindow)
    (hfind : cache.find (rateLimitKey customer_id) = some w)
    (hhour : w.hour = current_hour) (hge : rate_limit ≤ w.count) :
    rate_limit_step cache customer_id rate_limit current_hour =
      (Decision.denied 429, cache) := by
  simp [rate_limit_step, hfind, hhour, hge]

lemma cacheAfter_find (customer_id : String) (rate_limit : Nat)
    (current_hour : String) :
    ∀ n, n ≤ rate_limit →
      (cacheAfter customer_id rate_limit current_hour n).find (rateLimitKey customer_id) =
        if n = 0 then none else some { count := n, hour := current_hour } := by
  intro n
  induction n with
  | zero => intro _; simp [cacheAfter, Cache.find, List.lookup]
  | succ n ih =>
      intro hn
      have hn' : n ≤ rate_limit := Nat.le_of_succ_le hn
      have hfind := ih hn'
      show (rate_limit_step (cacheAfter customer_id rate_limit current_hour n)
          customer_id rate_limit current_hour).2.find (rateLimitKey customer_id) =
        if n + 1 = 0 then none else some { count := n + 1, hour := current_hour }
      rw [if_neg (Nat.succ_ne_zero n)]
      rcases Nat.eq_zero_or_pos n with h0 | hpos
      · subst h0
        rw [if_pos rfl] at hfind
        have hrl : rate_limit ≠ 0 := by omega
        have hstep := rate_limit_step_fresh _ customer_id rate_limit current_hour hfind
        rw [if_neg hrl] at hstep
        rw [hstep]
        simp [Cache.find_set_same]
      · have hne : n ≠ 0 := Nat.pos_iff_ne_zero.mp hpos
        rw [if_neg hne] at hfind
        have hlt : n < rate_limit := Nat.lt_of_succ_le hn
        have hstep := rate_limit_step_current_lt _ customer_id rate_limit current_hour
          _ hfind rfl hlt
        rw [hstep]
        simp [Cache.find_set_same]

lemma flatten_pages {α : Type} (limit : Nat) (hlim : 1 ≤ limit) :
    ∀ (n : Nat) (l : List α), l.length ≤ n →
      ((List.range ((l.length + limit - 1) / limit)).map
        (fun i => (l.drop (i * limit)).take limit)).flatten = l := by
  intro n
  induction n with
  | zero =>
      intro l hl
      have hnil : l = [] := List.eq_nil_of_length_eq_zero (Nat.le_zero.mp hl)
      subst hnil
      have h0 : ((List.nil (α := α)).length + limit - 1) / limit = 0 := by
        simp only [List.length_nil]
        exact Nat.div_eq_of_lt (by omega)
      rw [h0]
      simp
  | succ n ih =>
      intro l hl
      rcases eq_or_ne l [] with rfl | hne
      · have h0 : ((List.nil (α := α)).length + limit - 1) / limit = 0 := by
          simp only [List.length_nil]
          exact Nat.div_eq_of_lt (by omega)
        rw [h0]
        simp
      · have hL : 1 ≤ l.length := List.length_pos.mpr hne
        have hpages : (l.length + limit - 1) / limit = (l.length - 1) / limit + 1 := by
          have he : l.length + limit - 1 = (l.length - 1) + limit := by omega
          rw [he, Nat.add_div_right _ (by omega : 0 < limit)]
        rw [hpages, List.range_succ_eq_map, List.map_cons, List.flatten_cons,
          Nat.zero_mul, List.drop_zero, List.map_map]
        have hfun : ((fun i => (l.drop (i * limit)).take limit) ∘ Nat.succ) =
            (fun i => ((l.drop limit).drop (i * limit)).take limit) := by
          funext i
          simp only [Function.comp_apply, List.drop_drop]
          have hmul : Nat.succ i * limit = limit + i * limit := by
            rw [Nat.succ_mul]
            omega
          rw [hmul]
        rw [hfun]
        have hlen : (l.drop limit).length = l.length - limit := List.length_drop limit l
        have hcount : ((l.drop limit).length + limit - 1) / limit =
            (l.length - 1) / limit := by
          rw [hlen]
          rcases le_or_lt limit l.length with hle | hlt2
          · congr 1
            omega
          · have e1 : (l.length - limit + limit - 1) / limit = 0 :=
              Nat.div_eq_of_lt (by omega)
            have e2 : (l.length - 1) / limit = 0 := Nat.div_eq_of_lt (by omega)
            rw [e1, e2]
        have hih := ih (l.drop limit) (by rw [hlen]; omega)
        rw [hcount] at hih
        rw [hih]
        exact List.take_append_drop limit l

lemma offset_nonneg {page limit : Nat} (hpage : 1 ≤ page) :
    ¬ ((page : Int) - 1) * (limit : Int) < 0 := by
  have h1 : (0 : Int) ≤ (page : Int) - 1 := by omega
  exact not_lt.mpr (mul_nonneg h1 (Int.natCast_nonneg limit))

lemma offset_toNat {page limit : Nat} (hpage : 1 ≤ page) :
    (((page : Int) - 1) * (limit : Int)).toNat = (page - 1) * limit := by
  have hc : (page : Int) - 1 = ((page - 1 : Nat) : Int) := by omega
  rw [hc, ← Nat.cast_mul]
  exact Int.toNat_natCast _

lemma invItems_list (db : List InventoryItem) (tier : String) (page limit : Nat)
    (hpage : 1 ≤ page) (hlim : 1 ≤ limit) :
    invItems (get_inventory db tier none page limit) =
      (db.drop ((page - 1) * limit)).take limit := by
  have hlim0 : ¬ limit = 0 := by omega
  by_cases ht : tier = "enterprise"
  · simp [get_inventory, truthyStr, ht, hlim0, invItems, offset_nonneg hpage,
      offset_toNat hpage]
  · simp [get_inventory, truthyStr, ht, invItems, offset_nonneg hpage,
      offset_toNat hpage]

/-- C5: pagination is stable and total.  With pages 1-indexed and
`offset = (page - 1) * limit` over items in stable id order,
concatenating the item lists of all pages for any fixed `limit ≥ 1`
reproduces the full ordered item set exactly once, with no gaps or
duplicates. -/
theorem C5_pagination_stable_total (db : List InventoryItem) (tier : String)
    (limit : Nat) (hlim : 1 ≤ limit) :
    ((List.range ((db.length + limit - 1) / limit)).map
      (fun i => invItems (get_inventory db tier none (i + 1) limit))).flatten = db := by
  have hfun : (fun i => invItems (get_inventory db tier none (i + 1) limit)) =
      (fun i => (db.drop (i * limit)).take limit) := by
    funext i
    rw [invItems_list db tier (i + 1) limit (Nat.le_add_left 1 i) hlim]
    simp
  rw [hfun]
  exact flatten_pages limit hlim db.length db (le_refl _)

/-- Witness for C5 at a concrete inventory and limit. -/
theorem C5_pagination_stable_total_witness :
    1 ≤ 2 ∧
    ((List.range ((demoDb.length + 2 - 1) / 2)).map
      (fun i => invItems (get_inventory demoDb "standard" none (i + 1) 2))).flatten =
        demoDb :=
  ⟨by decide, C5_pagination_stable_total demoDb "standard" 2 (by decide)⟩

/-- C1: for every customer and every tier in the fixed set, within a
single hour bucket the 1st through limit-th requests (limit = the
tier's rate limit: standard 30, premium 100, enterprise 300) are
Allowed, and the (limit+1)-th request in the same hour is Denied with
status 429. -/
theorem C1_rate_limit_within_hour (customer_id tier_name : String)
    (info : TierInfo) (hmem : (tier_name, info) ∈ CUSTOMER_TIERS)
    (current_hour : String) (k : Nat) (hk1 : 1 ≤ k) (hk2 : k ≤ info.rate_limit) :
    nthDecision customer_id info.rate_limit current_hour k = Decision.allowed ∧
    nthDecision customer_id info.rate_limit current_hour (info.rate_limit + 1) =
      Decision.denied 429 := by
  have hpos : 1 ≤ info.rate_limit := le_trans hk1 hk2
  constructor
  · have hfind := cacheAfter_find customer_id info.rate_limit current_hour (k - 1)
      (by omega)
    unfold nthDecision
    rcases Nat.eq_zero_or_pos (k - 1) with h0 | hp
    · rw [h0] at hfind ⊢
      rw [if_pos rfl] at hfind
      rw [rate_limit_step_fresh _ _ _ _ hfind,
        if_neg (by omega : ¬ info.rate_limit = 0)]
    · rw [if_neg (by omega : ¬ k - 1 = 0)] at hfind
      rw [rate_limit_step_current_lt _ _ _ _ _ hfind rfl
        (by simp only []; omega : RateWindow.count { count := k - 1, hour := current_hour } < info.rate_limit)]
  · have hfind := cacheAfter_find customer_id info.rate_limit current_hour
      info.rate_limit (le_refl _)
    rw [if_neg (by omega : ¬ info.rate_limit = 0)] at hfind
    unfold nthDecision
    have h1 : info.rate_limit + 1 - 1 = info.rate_limit := by omega
    rw [h1, rate_limit_step_current_ge _ _ _ _ _ hfind rfl (le_refl _)]

/-- Witness for C1: the standard tier at a concrete customer and hour,
first request allowed and 31st denied with 429. -/
theorem C1_rate_limit_within_hour_witness :
    (("standard", ({ rate_limit := 30, priority := 1 } : TierInfo)) ∈ CUSTOMER_TIERS ∧
      1 ≤ 1 ∧ 1 ≤ 30) ∧
    (nthDecision "CUST001" 30 "2024-01-01-10" 1 = Decision.allowed ∧
     nthDecision "CUST001" 30 "2024-01-01-10" 31 = Decision.denied 429) :=
  ⟨⟨by decide, by decide, by decide⟩,
    C1_rate_limit_within_hour "CUST001" "standard" { rate_limit := 30, priority := 1 }
      (by decide) "2024-01-01-10" 1 (by decide) (by decide)⟩

/-- C2: when the wall-clock hour label differs from the bucket key
stored in the customer's rate window, or no window exists, the step
behaves exactly as if the window had been reset to count 0 for the new
bucket before the limit check, regardless of the prior count, and the
resulting stored window belongs to the new bucket with the old count
discarded (0 kept on a deny, 1 after the allowed increment). -/
theorem C2_hour_boundary_reset (cache : Cache) (customer_id : String)
    (rate_limit : Nat) (current_hour : String)
    (h : cache.find (rateLimitKey customer_id) = none ∨
         ∃ w, cache.find (rateLimitKey customer_id) = some w ∧
           w.hour ≠ current_hour) :
    rate_limit_step cache customer_id rate_limit current_hour =
      rate_limit_step
        (cache.set (rateLimitKey customer_id) { count := 0, hour := current_hour })
        customer_id rate_limit current_hour ∧
    (rate_limit_step cache customer_id rate_limit current_hour).2.find
        (rateLimitKey customer_id) =
      some { count := if rate_limit = 0 then 0 else 1, hour := current_hour } := by
  have hL : rate_limit_step cache customer_id rate_limit current_hour =
      if rate_limit = 0 then
        (Decision.denied 429,
          cache.set (rateLimitKey customer_id) { count := 0, hour := current_hour })
      else
        (Decision.allowed,
          ((cache.set (rateLimitKey customer_id) { count := 0, hour := current_hour }).set
            (rateLimitKey customer_id) { count := 1, hour := current_hour })) := by
    rcases h with hnone | ⟨w, hw, hhour⟩
    · exact rate_limit_step_fresh _ _ _ _ hnone
    · exact rate_limit_step_stale _ _ _ _ _ hw hhour
  have hR : rate_limit_step
      (cache.set (rateLimitKey customer_id) { count := 0, hour := current_hour })
      customer_id rate_limit current_hour =
      if rate_limit = 0 then
        (Decision.denied 429,
          cache.set (rateLimitKey customer_id) { count := 0, hour := current_hour })
      else
        (Decision.allowed,
          ((cache.set (rateLimitKey customer_id) { count := 0, hour := current_hour }).set
            (rateLimitKey customer_id) { count := 1, hour := current_hour })) := by
    rcases Nat.eq_zero_or_pos rate_limit with h0 | hpos
    · subst h0
      rw [if_pos rfl]
      exact rate_limit_step_current_ge _ _ _ _ _
        (Cache.find_set_same _ _ _) rfl (Nat.zero_le _)
    · rw [if_neg (by omega : ¬ rate_limit = 0)]
      have hstep := rate_limit_step_current_lt
        (cache.set (rateLimitKey customer_id) { count := 0, hour := current_hour })
        customer_id rate_limit current_hour { count := 0, hour := current_hour }
        (Cache.find_set_same _ _ _) rfl (by simpa using hpos)
      simpa using hstep
  refine ⟨by rw [hL, hR], ?_⟩
  rw [hL]
  rcases Nat.eq_zero_or_pos rate_limit with h0 | hpos
  · subst h0
    rw [if_pos rfl, if_pos rfl]
    simp [Cache.find_set_same]
  · rw [if_neg (by omega : ¬ rate_limit = 0), if_neg (by omega : ¬ rate_limit = 0)]
    simp [Cache.find_set_same]

/-- Witness for C2: a stale window from the previous hour is discarded,
not carried over. -/
theorem C2_hour_boundary_reset_witness :
    (demoCache.find (rateLimitKey "CUST001") = none ∨
      ∃ w, demoCache.find (rateLimitKey "CUST001") = some w ∧
        w.hour ≠ "2024-01-01-11") ∧
    (rate_limit_step demoCache "CUST001" 30 "2024-01-01-11").2.find
        (rateLimitKey "CUST001") =
      some { count := if (30 : Nat) = 0 then 0 else 1, hour := "2024-01-01-11" } :=
  ⟨Or.inr ⟨{ count := 30, hour := "2024-01-01-10" }, by decide, by decide⟩,
    (C2_hour_boundary_reset demoCache "CUST001" 30 "2024-01-01-11"
      (Or.inr ⟨{ count := 30, hour := "2024-01-01-10" }, by decide, by decide⟩)).2⟩

/-- C6: a Denied (rate-limited) request does not mutate the
rate-limiter state: when the stored window is in the current hour
bucket and its count has already reached the tier's limit, the request
is rejected with 429 and the cache is exactly as before the call. -/
theorem C6_denied_no_mutation (cache : Cache) (customer_id : String)
    (rate_limit : Nat) (current_hour : String) (w : RateWindow)
    (hfind : cache.find (rateLimitKey customer_id) = some w)
    (hhour : w.hour = current_hour) (hge : rate_limit ≤ w.count) :
    rate_limit_step cache customer_id rate_limit current_hour =
      (Decision.denied 429, cache) :=
  rate_limit_step_current_ge cache customer_id rate_limit current_hour w
    hfind hhour hge

/-- Witness for C6: a standard-tier customer at count 30 in the current
hour is denied and the cache is unchanged. -/
theorem C6_denied_no_mutation_witness :
    (demoCache.find (rateLimitKey "CUST001") =
        some { count := 30, hour := "2024-01-01-10" } ∧
      (30 : Nat) ≤ 30) ∧
    rate_limit_step demoCache "CUST001" 30 "2024-01-01-10" =
      (Decision.denied 429, demoCache) :=
  ⟨⟨by decide, by decide⟩,
    C6_denied_no_mutation demoCache "CUST001" 30 "2024-01-01-10"
      { count := 30, hour := "2024-01-01-10" } (by decide) rfl (by decide)⟩

/-- C10: frame property of the rate limiter.  Processing a request from
one customer writes only the cache entry keyed `rate_limit:<customer>`:
every other key, and in particular the stored count and hour bucket of
every other customer, is unchanged by the call. -/
theorem C10_rate_limiter_frame (cache : Cache) (customer_id : String)
    (rate_limit : Nat) (current_hour : String) :
    (∀ k, k ≠ rateLimitKey customer_id →
      (rate_limit_step cache customer_id rate_limit current_hour).2.find k =
        cache.find k) ∧
    (∀ other_id, other_id ≠ customer_id →
      (rate_limit_step cache customer_id rate_limit current_hour).2.find
          (rateLimitKey other_id) =
        cache.find (rateLimitKey other_id)) := by
  have hmain : ∀ k, k ≠ rateLimitKey customer_id →
      (rate_limit_step cache customer_id rate_limit current_hour).2.find k =
        cache.find k := by
    intro k hk
    rcases hf : cache.find (rateLimitKey customer_id) with _ | w
    · rw [rate_limit_step_fresh _ _ _ _ hf]
      rcases Nat.eq_zero_or_pos rate_limit with h0 | hpos
      · rw [if_pos h0]
        simp [Cache.find_set_other _ _ _ _ hk]
      · rw [if_neg (by omega : ¬ rate_limit = 0)]
        simp [Cache.find_set_other _ _ _ _ hk]
    · by_cases hh : w.hour = current_hour
      · by_cases hc : rate_limit ≤ w.count
        · rw [rate_limit_step_current_ge _ _ _ _ _ hf hh hc]
        · rw [rate_limit_step_current_lt _ _ _ _ _ hf hh (by omega)]
          simp [Cache.find_set_other _ _ _ _ hk]
      · rw [rate_limit_step_stale _ _ _ _ _ hf hh]
        rcases Nat.eq_zero_or_pos rate_limit with h0 | hpos
        · rw [if_pos h0]
          simp [Cache.find_set_other _ _ _ _ hk]
        · rw [if_neg (by omega : ¬ rate_limit = 0)]
          simp [Cache.find_set_other _ _ _ _ hk]
  refine ⟨hmain, fun other_id ho => hmain _ fun hcontra => ho (rateLimitKey_inj hcontra)⟩

/-- Witness for C10: a request by CUST001 leaves the entry of CUST002
untouched. -/
theorem C10_rate_limiter_frame_witness :
    ("CUST002" : String) ≠ "CUST001" ∧
    (rate_limit_step demoCache "CUST001" 30 "2024-01-01-10").2.find
        (rateLimitKey "CUST002") =
      demoCache.find (rateLimitKey "CUST002") :=
  ⟨by decide,
    (C10_rate_limiter_frame demoCache "CUST001" 30 "2024-01-01-10").2 "CUST002"
      (by decide)⟩

/-- C3: token round-trip.  For every customer id and every tier in the
fixed set, decoding a token produced by `create_token` yields the
original customer id as subject and the original tier, provided
verification happens before the 24-hour expiration. -/
theorem C3_token_roundtrip (customer_id tier : String) (now verify_time : Nat)
    (htier : tier ∈ ["standard", "premium", "enterprise"])
    (hnow : verify_time < now + 24 * 3600) :
    decode_token (create_token now customer_id tier) verify_time =
      Except.ok { sub := customer_id, tier := tier, exp := now + 24 * 3600 } := by
  simp [decode_token, create_token, hs256_sign, hnow]

/-- Witness for C3 at a concrete customer, tier and issue time. -/
theorem C3_token_roundtrip_witness :
    (("standard" : String) ∈ ["standard", "premium", "enterprise"] ∧
      (0 : Nat) < 0 + 24 * 3600) ∧
    decode_token (create_token 0 "CUST001" "standard") 0 =
      Except.ok { sub := "CUST001", tier := "standard", exp := 0 + 24 * 3600 } :=
  ⟨⟨by decide, by decide⟩,
    C3_token_roundtrip "CUST001" "standard" 0 0 (by decide) (by decide)⟩

/-- C7: expired or tampered tokens always fail verification.  If the
signature does not verify under the shared secret, or the expiration
timestamp has passed, `decode_token` fails with 401 and never returns a
payload. -/
theorem C7_invalid_token_rejected (t : Token) (now : Nat)
    (h : t.sig ≠ hs256_sign SECRET_KEY t.payload ∨ t.payload.exp ≤ now) :
    decode_token t now = Except.error 401 := by
  have hcond : ¬ (t.sig = hs256_sign SECRET_KEY t.payload ∧ now < t.payload.exp) := by
    rintro ⟨h1, h2⟩
    rcases h with hs | he
    · exact hs h1
    · omega
  simp [decode_token, hcond]

/-- Witness for C7: a token signed under the wrong key is rejected. -/
theorem C7_invalid_token_rejected_witness :
    (tamperedToken.sig ≠ hs256_sign SECRET_KEY tamperedToken.payload ∨
      tamperedToken.payload.exp ≤ 0) ∧
    decode_token tamperedToken 0 = Except.error 401 :=
  ⟨Or.inl (by decide), C7_invalid_token_rejected tamperedToken 0 (Or.inl (by decide))⟩

/-- C8: a request for an item id that does not exist in the inventory
returns a 200 response with an empty items result, not an error:
absence is a valid response, never mapped to a failure outcome. -/
theorem C8_missing_item_empty_ok (db : List InventoryItem) (tier : String)
    (s : String) (page limit : Nat) (hs : s ≠ "")
    (habsent : ∀ it ∈ db, it.item_id ≠ s) :
    get_inventory db tier (some s) page limit =
      Except.ok { items := [], total := none, pageField := none,
                  limitField := none, pages := none } := by
  have htruthy : truthyStr (some s) = true := by simp [truthyStr, hs]
  have hfilter : db.filter (fun it => it.item_id == (some s).getD "") = [] := by
    rw [List.filter_eq_nil_iff]
    intro it hit
    simp [habsent it hit]
  simp only [get_inventory, htruthy, if_true, hfilter]

/-- Witness for C8: a lookup of an absent item id on the demo inventory
returns the empty 200 result. -/
theorem C8_missing_item_empty_ok_witness :
    (("MISSING" : String) ≠ "" ∧ ∀ it ∈ demoDb, it.item_id ≠ "MISSING") ∧
    get_inventory demoDb "standard" (some "MISSING") 1 100 =
      Except.ok { items := [], total := none, pageField := none,
                  limitField := none, pages := none } :=
  ⟨⟨by decide, by decide⟩,
    C8_missing_item_empty_ok demoDb "standard" "MISSING" 1 100 (by decide) (by decide)⟩

/-- Counterexample to C4 as stated: on an empty inventory the
enterprise list response carries `total = 0` but a null `pages` value
(the code writes `None` when the count is falsy), not
`ceil(total/limit) = 0`. -/
theorem C4_counterexample :
    invMeta (get_inventory [] "enterprise" none 1 10) =
      Except.ok (some 0, some 1, some 10, some none) ∧
    some (none : Option Nat) ≠ some (some ((0 + 10 - 1) / 10)) := by
  exact ⟨rfl, by decide⟩

/-- C4 (amended): only the enterprise tier receives total and page
counts in a list response, with `pages = ceil(total/limit)` when the
total is nonzero and a null `pages` value when the total is 0; standard
and premium list responses and single-item (`itemId`) responses of any
tier never contain these fields.  The ceiling is characterized by
`total ≤ pages * limit` and `(pages - 1) * limit < total`.  Restricted
to `page ≥ 1`, where the handler succeeds: at `page = 0` the source
computes a negative offset and the query failure surfaces as 500. -/
theorem C4_tiered_response_fields (db : List InventoryItem) (tier : String)
    (item_id : Option String) (page limit : Nat) (hpage : 1 ≤ page)
    (hlim : 1 ≤ limit) :
    (tier = "enterprise" → truthyStr item_id = false →
      invMeta (get_inventory db tier item_id page limit) =
        Except.ok (some db.length, some page, some limit,
          if db.length = 0 then some none
          else some (some ((db.length + limit - 1) / limit))) ∧
      (db.length ≠ 0 →
        db.length ≤ ((db.length + limit - 1) / limit) * limit ∧
        ((db.length + limit - 1) / limit - 1) * limit < db.length)) ∧
    (¬ (tier = "enterprise" ∧ truthyStr item_id = false) →
      invMeta (get_inventory db tier item_id page limit) =
        Except.ok (none, none, none, none)) := by
  have hlim0 : ¬ limit = 0 := by omega
  constructor
  · intro ht hitem
    constructor
    · simp [get_inventory, hitem, ht, hlim0, invMeta, offset_nonneg hpage]
    · intro hL0
      have h1 : (db.length + limit - 1) / limit = (db.length - 1) / limit + 1 := by
        have he : db.length + limit - 1 = (db.length - 1) + limit := by omega
        rw [he, Nat.add_div_right _ (by omega : 0 < limit)]
      constructor
      · rw [h1]
        have h2 : db.length - 1 < ((db.length - 1) / limit + 1) * limit := by
          have hdm := Nat.div_add_mod (db.length - 1) limit
          have hml := Nat.mod_lt (db.length - 1) (by omega : 0 < limit)
          nlinarith
        have h2' := Nat.succ_le_of_lt h2
        rwa [Nat.succ_eq_add_one, Nat.sub_add_cancel (by omega : 1 ≤ db.length)] at h2'
      · rw [h1, Nat.add_sub_cancel]
        exact lt_of_le_of_lt (Nat.div_mul_le_self _ _)
          (Nat.sub_lt (by omega) Nat.one_pos)
  · intro hncond
    cases hitem : truthyStr item_id with
    | true => simp [get_inventory, hitem, invMeta]
    | false =>
        have ht : ¬ tier = "enterprise" := fun h => hncond ⟨h, hitem⟩
        simp [get_inventory, hitem, ht, invMeta, offset_nonneg hpage]

/-- Witness for C4 at the demo inventory: the enterprise list response
carries total 3 and pages computed from limit 2. -/
theorem C4_tiered_response_fields_witness :
    (1 ≤ 1 ∧ 1 ≤ 2) ∧
    invMeta (get_inventory demoDb "enterprise" none 1 2) =
      Except.ok (some demoDb.length, some 1, some 2,
        if demoDb.length = 0 then some none
        else some (some ((demoDb.length + 2 - 1) / 2))) :=
  ⟨⟨by decide, by decide⟩,
    ((C4_tiered_response_fields demoDb "enterprise" none 1 2 (by decide)
      (by decide)).1 rfl rfl).1⟩

/-- Counterexample to C9 as stated: a successful login response carries
no processing-time indicator.  The middleware returns the login
response from `call_next` unchanged (src/main.py lines 93-94) and only
adds the `X-Processing-Time` header on the authenticated path
(src/main.py line 139), and nothing in the login handler sets it. -/
theorem C9_counterexample :
    (auth_and_rate_limit [] 0 "2024-01-01-10"
        { path := "/api/login", auth := AuthHeader.missing }
        (login_response 0 "CUST001" "apikey001")).1.hasProcessingTime = false := by
  rfl

/-- C9 (amended): only responses that pass authentication and rate
limiting on non-login paths carry the `X-Processing-Time` indicator;
login responses pass through the middleware unchanged, and the
middleware's own error responses (401 for missing, malformed, invalid
or unknown-tier tokens, 429 for rate-limited requests) never carry
it. -/
theorem C9_processing_time_header (cache : Cache) (now : Nat)
    (current_hour : String) (req : MwRequest) (inner : Response) :
    (req.path = "/api/login" →
      auth_and_rate_limit cache now current_hour req inner = (inner, cache)) ∧
    (req.path ≠ "/api/login" →
      ∀ t token_data info,
        req.auth = AuthHeader.bearer t →
        decode_token t now = Except.ok token_data →
        List.lookup token_data.tier CUSTOMER_TIERS = some info →
        (rate_limit_step cache token_data.sub info.rate_limit current_hour).1 =
          Decision.allowed →
        (auth_and_rate_limit cache now current_hour req inner).1 =
          { status := inner.status, hasProcessingTime := true }) ∧
    (req.path ≠ "/api/login" →
      ((req.auth = AuthHeader.missing ∨ req.auth = AuthHeader.malformed) →
        (auth_and_rate_limit cache now current_hour req inner).1 =
          { status := 401, hasProcessingTime := false }) ∧
      (∀ t, req.auth = AuthHeader.bearer t →
        decode_token t now = Except.error 401 →
        (auth_and_rate_limit cache now current_hour req inner).1 =
          { status := 401, hasProcessingTime := false }) ∧
      (∀ t token_data, req.auth = AuthHeader.bearer t →
        decode_token t now = Except.ok token_data →
        List.lookup token_data.tier CUSTOMER_TIERS = none →
        (auth_and_rate_limit cache now current_hour req inner).1 =
          { status := 401, hasProcessingTime := false }) ∧
      (∀ t token_data info, req.auth = AuthHeader.bearer t →
        decode_token t now = Except.ok token_data →
        List.lookup token_data.tier CUSTOMER_TIERS = some info →
        (rate_limit_step cache token_data.sub info.rate_limit current_hour).1 =
          Decision.denied 429 →
        (auth_and_rate_limit cache now current_hour req inner).1 =
          { status := 429, hasProcessingTime := false })) := by
  refine ⟨?_, ?_, ?_⟩
  · intro hp
    simp [auth_and_rate_limit, hp]
  · intro hp t token_data info hauth hdec hlook hallow
    rcases hstep : rate_limit_step cache token_data.sub info.rate_limit current_hour
      with ⟨d, c2⟩
    rw [hstep] at hallow
    simp only [Prod.fst] at hallow
    subst hallow
    simp [auth_and_rate_limit, hp, hauth, hdec, hlook, hstep]
  · intro hp
    refine ⟨?_, ?_, ?_, ?_⟩
    · rintro (hauth | hauth) <;> simp [auth_and_rate_limit, hp, hauth]
    · intro t hauth hdec
      simp [auth_and_rate_limit, hp, hauth, hdec]
    · intro t token_data hauth hdec hlook
      simp [auth_and_rate_limit, hp, hauth, hdec, hlook]
    · intro t token_data info hauth hdec hlook hdeny
      rcases hstep : rate_limit_step cache token_data.sub info.rate_limit current_hour
        with ⟨d, c2⟩
      rw [hstep] at hdeny
      simp only [Prod.fst] at hdeny
      subst hdeny
      simp [auth_and_rate_limit, hp, hauth, hdec, hlook, hstep]

/-- Witness for C9 (amended): the authenticated, rate-check-passing
path adds the processing-time header. -/
theorem C9_processing_time_header_witness :
    (("/api/inventory" : String) ≠ "/api/login" ∧
      decode_token (create_token 0 "CUST001" "standard") 0 =
        Except.ok { sub := "CUST001", tier := "standard", exp := 0 + 24 * 3600 } ∧
      List.lookup "standard" CUSTOMER_TIERS =
        some { rate_limit := 30, priority := 1 } ∧
      (rate_limit_step [] "CUST001" 30 "2024-01-01-10").1 = Decision.allowed) ∧
    (auth_and_rate_limit [] 0 "2024-01-01-10"
        { path := "/api/inventory",
          auth := AuthHeader.bearer (create_token 0 "CUST001" "standard") }
        { status := 200, hasProcessingTime := false }).1 =
      { status := 200, hasProcessingTime := true } :=
  ⟨⟨by decide, rfl, by decide, by decide⟩,
    (C9_processing_time_header [] 0 "2024-01-01-10"
        { path := "/api/inventory",
          auth := AuthHeader.bearer (create_token 0 "CUST001" "standard") }
        { status := 200, hasProcessingTime := false }).2.1 (by decide)
      (create_token 0 "CUST001" "standard")
      { sub := "CUST001", tier := "standard", exp := 0 + 24 * 3600 }
      { rate_limit := 30, priority := 1 }
      rfl rfl (by decide) (by decide)⟩
